import Mathlib

/-!
Shallow embedding of the authentication and session-security subsystem of
`backend/app` (files `core/security.py` and `api/auth.py`), together with the
external-collaborator contracts they rely on (python-jose JWT decoding, Redis
`SETEX`/`EXISTS`, passlib bcrypt verification, pyotp TOTP verification).

Time is modelled as integer Unix seconds with a single consistent clock; each
request-handling function takes the current time `now` explicitly.  A Redis
blocklist entry written by `SETEX key ttl` at time `t` is live while
`now < t + ttl` (jose truncates its clock to whole seconds while Redis expiry
is sub-second exact, so during the second in which the entry lapses the
dominant behaviour is "entry gone").
-/

namespace EnochCyber

/-- Symbolic bcrypt digests: a well-formed digest produced by
`pwd_context.hash` records its embedded salt and the plaintext it hashes;
anything passlib cannot identify as a bcrypt hash is `malformed`. -/
inductive Digest where
  | bcrypt (salt : String) (password : String) : Digest
  | malformed (raw : String) : Digest
deriving DecidableEq, Repr

/-- The `User` SQLAlchemy model as read by the auth core
(`models.user.User`): id, username, bcrypt password hash (a string column,
interpreted symbolically as a `Digest`), active flag, superuser flag,
optional TOTP secret, two-factor flag. -/
structure User where
  id : Nat
  username : String
  hashed_password : Digest
  is_active : Bool
  is_superuser : Bool
  two_factor_secret : Option String
  is_two_factor_enabled : Bool
deriving DecidableEq, Repr

/-- A decoded JWT payload: the claims the auth core reads.  `sub`, `scope`,
`user_id` and `jti` are looked up with `payload.get`, hence optional; `exp` is
optional because python-jose only validates expiry when the claim is present. -/
structure TokenPayload where
  sub : Option String
  scope : Option String
  user_id : Option Nat
  jti : Option String
  tokExp : Option Nat
deriving DecidableEq, Repr

/-- A bearer token as presented on the wire: either a token correctly signed
with the server's `SECRET_KEY` (so `jwt.decode` recovers its payload), or
anything that fails signature or structural verification. -/
inductive Token where
  | signed (p : TokenPayload) : Token
  | malformed : Token
deriving DecidableEq, Repr

/-- Errors surfaced by the auth core: `http s d` is an `HTTPException` with
status code `s` and detail `d`; `unknownHash` is passlib's `UnknownHashError`
escaping `pwd_context.verify` on a digest that cannot be identified as bcrypt. -/
inductive Err where
  | http (status_code : Nat) (detail : String)
  | unknownHash
deriving DecidableEq, Repr

/-- The detail string of `credentials_exception` in `get_current_user`. -/
def credentialsDetail : String := "Could not validate credentials"

instance {ε α : Type} [DecidableEq ε] [DecidableEq α] :
    DecidableEq (Except ε α) := fun
  | .ok a, .ok b => decidable_of_iff (a = b) (by simp)
  | .ok _, .error _ => isFalse (by simp)
  | .error _, .ok _ => isFalse (by simp)
  | .error a, .error b => decidable_of_iff (a = b) (by simp)

/-- python-jose `JWTError` (including `ExpiredSignatureError`). -/
inductive JWTError where
  | jwtError
deriving DecidableEq, Repr

/-- Expiry validation of python-jose `_validate_exp`: skipped when the claim
is absent; otherwise fails exactly when `exp < now` (leeway 0), so a token is
accepted through the second `exp` itself. -/
def expOk (now : Nat) : Option Nat → Bool
  | none => true
  | some e => !(e < now)

/-- `jwt.decode(token, SECRET_KEY, algorithms=[ALGORITHM])`: verifies the
signature and, when the `exp` claim is present, rejects expired tokens. -/
def jwtDecode (now : Nat) : Token → Except JWTError TokenPayload
  | .malformed => .error .jwtError
  | .signed p => if expOk now p.tokExp then .ok p else .error .jwtError

/-- `jwt.decode(..., options={"verify_exp": False})` as used by `logout`:
signature check only, no expiry validation. -/
def jwtDecodeNoExp : Token → Except JWTError TokenPayload
  | .malformed => .error .jwtError
  | .signed p => .ok p

/-- The Redis blocklist: each entry is a key together with the absolute time
at which it lapses (`SETEX` at time `t` with ttl `d` yields lapse time
`t + d`). -/
abbrev Blocklist := List (String × Nat)

/-- Redis `EXISTS key` at time `now`: some entry for `key` is still live. -/
def redisExists (bl : Blocklist) (now : Nat) (key : String) : Bool :=
  bl.any (fun e => e.1 == key && decide (now < e.2))

/-- Redis `SETEX key ttl value`: inserts an entry lapsing at `now + ttl`. -/
def redisSetex (bl : Blocklist) (now : Nat) (key : String) (ttl : Nat) : Blocklist :=
  (key, now + ttl) :: bl

/-- `add_token_to_blocklist` (`core/security.py`): `ttl` is the signed
difference `expires_at_timestamp - now`; the entry is written only when
`ttl > 0`. -/
def add_token_to_blocklist (bl : Blocklist) (now : Nat) (jti : String)
    (expires_at_timestamp : Nat) : Blocklist :=
  let ttl : Int := (expires_at_timestamp : Int) - (now : Int)
  if 0 < ttl then redisSetex bl now jti ttl.toNat else bl

/-- The principal store: `select(User).where(User.username == u)` followed by
`.scalars().first()` returns the first matching row. -/
def findByUsername (db : List User) (username : String) : Option User :=
  db.find? (fun u => u.username == username)

/-- `db.get(User, user_id)`: primary-key lookup. -/
def findById (db : List User) (uid : Nat) : Option User :=
  db.find? (fun u => u.id == uid)

/-- passlib `CryptContext(schemes=["bcrypt"]).verify`: returns the boolean
result of bcrypt verification on a well-formed digest and raises
`UnknownHashError` on a digest it cannot identify. -/
def pwdContextVerify (plain : String) (digest : Digest) : Except Err Bool :=
  match digest with
  | .bcrypt _ pw => .ok (plain == pw)
  | .malformed _ => .error .unknownHash

/-- `verify_password` (`core/security.py`): a direct call to
`pwd_context.verify`, with no exception handling of its own. -/
def verify_password (plain_password : String) (hashed_password : Digest) :
    Except Err Bool :=
  pwdContextVerify plain_password hashed_password

/-- `ACCESS_TOKEN_EXPIRE_MINUTES` (`core/security.py`). -/
def ACCESS_TOKEN_EXPIRE_MINUTES : Nat := 30

/-- The `data` dict passed to `create_access_token` by its two callers in
`api/auth.py`: always a subject, optionally a scope and a user id. -/
structure TokenInput where
  sub : String
  scope : Option String
  user_id : Option Nat
deriving DecidableEq, Repr

/-- `create_access_token` (`core/security.py`): copies `data`, computes the
expiry as now plus `expires_delta` (defaulting to
`ACCESS_TOKEN_EXPIRE_MINUTES`), adds a freshly generated `jti`, and signs the
result.  The fresh `uuid.uuid4().hex` value is passed in as `jti`; deltas are
in seconds. -/
def create_access_token (data : TokenInput) (expires_delta : Option Nat)
    (now : Nat) (jti : String) : TokenPayload :=
  let expire := match expires_delta with
    | some d => now + d
    | none => now + ACCESS_TOKEN_EXPIRE_MINUTES * 60
  { sub := some data.sub, scope := data.scope, user_id := data.user_id,
    jti := some jti, tokExp := some expire }

/-- `authenticate_user` (`core/security.py`): looks the user up by username,
returns `none` when absent or when the password does not verify; a passlib
error from `verify_password` propagates. -/
def authenticate_user (db : List User) (username password : String) :
    Except Err (Option User) :=
  match findByUsername db username with
  | none => .ok none
  | some user =>
    match verify_password password user.hashed_password with
    | .error e => .error e
    | .ok b => if !b then .ok none else .ok (some user)

/-- `get_current_user` (`core/security.py`): decode with expiry enforcement;
require `sub` and `jti`; reject blocklisted `jti`; reject scope
`2fa_required`; resolve the principal by username.  Every rejection is an
HTTP 401. -/
def get_current_user (db : List User) (bl : Blocklist) (now : Nat)
    (token : Token) : Except Err User :=
  match jwtDecode now token with
  | .error _ => .error (.http 401 credentialsDetail)
  | .ok payload =>
    match payload.sub, payload.jti with
    | some username, some jti =>
      if redisExists bl now jti then
        .error (.http 401 credentialsDetail)
      else if payload.scope == some "2fa_required" then
        .error (.http 401
          "Token valid only for 2FA verification step. Full authentication required.")
      else
        match findByUsername db username with
        | none => .error (.http 401 credentialsDetail)
        | some user => .ok user
    | _, _ => .error (.http 401 credentialsDetail)

/-- `get_current_active_user` (`core/security.py`): resolves the caller via
`get_current_user`, then rejects inactive principals with HTTP 400
"Inactive user". -/
def get_current_active_user (db : List User) (bl : Blocklist) (now : Nat)
    (token : Token) : Except Err User :=
  match get_current_user db bl now token with
  | .error e => .error e
  | .ok current_user =>
    if !current_user.is_active then .error (.http 400 "Inactive user")
    else .ok current_user

/-- `get_current_user_for_2fa` (`core/security.py`): decode with expiry
enforcement; require `sub`, scope exactly `2fa_required`, `user_id` and
`jti`; reject blocklisted `jti`; load the principal by id and require the
username to match.  The active flag is deliberately not checked. -/
def get_current_user_for_2fa (db : List User) (bl : Blocklist) (now : Nat)
    (token : Token) : Except Err User :=
  let credErr : Err := .http 401 "Could not validate credentials for 2FA"
  match jwtDecode now token with
  | .error _ => .error credErr
  | .ok payload =>
    match payload.sub, payload.user_id, payload.jti with
    | some username, some user_id, some jti =>
      if payload.scope != some "2fa_required" then .error credErr
      else if redisExists bl now jti then .error credErr
      else
        match findById db user_id with
        | none => .error credErr
        | some user =>
          if user.username != username then .error credErr else .ok user
    | _, _, _ => .error credErr

/-- Modelled from the spec: pyotp's TOTP code derivation is an external
library whose HMAC-SHA1 internals are outside the repository; §4.5 of the
spec says the verifier computes the expected time-based code from the secret
and the current time step and compares it to the submitted code.  The
derivation is modelled as a concrete injective stand-in from secret and the
30-second time step. -/
def totpAt (secret : String) (timestep : Nat) : String :=
  secret ++ "@" ++ toString timestep

/-- `pyotp.TOTP(secret).verify(code)` with the default `valid_window = 0`:
the submitted code must equal the code of the current 30-second step. -/
def totpVerify (secret : String) (now : Nat) (code : String) : Bool :=
  code == totpAt secret (now / 30)

/-- The JSON body returned by `login_for_access_token`: either the
two-factor branch (restricted token, `is_2fa_required: True`, user id) or
the fully-authenticated branch. -/
inductive LoginResponse where
  | twoFA (access_token : Token) (token_type : String)
      (is_2fa_required : Bool) (user_id : Nat)
  | full (access_token : Token) (token_type : String)
deriving DecidableEq, Repr

/-- `login_for_access_token` (`api/auth.py`): authenticate; on failure HTTP
401 "Incorrect username or password"; with two-factor enabled issue a
5-minute token with scope `2fa_required` and the user id embedded; otherwise
issue an `ACCESS_TOKEN_EXPIRE_MINUTES` token with only the subject. -/
def login_for_access_token (db : List User) (username password : String)
    (now : Nat) (jti : String) : Except Err LoginResponse :=
  match authenticate_user db username password with
  | .error e => .error e
  | .ok none => .error (.http 401 "Incorrect username or password")
  | .ok (some user) =>
    if user.is_two_factor_enabled then
      let tok := create_access_token
        { sub := user.username, scope := some "2fa_required",
          user_id := some user.id } (some (5 * 60)) now jti
      .ok (.twoFA (.signed tok) "bearer" true user.id)
    else
      let tok := create_access_token
        { sub := user.username, scope := none, user_id := none }
        (some (ACCESS_TOKEN_EXPIRE_MINUTES * 60)) now jti
      .ok (.full (.signed tok) "bearer")

/-- The body returned by `verify_2fa_login` (schema `Token`). -/
structure TokenResponse where
  access_token : Token
  token_type : String
deriving DecidableEq, Repr

/-- `verify_2fa_login` (`api/auth.py`): the dependency
`get_current_user_for_2fa` validates the restricted token; the handler then
re-fetches the user by id, rejects with HTTP 400 when two-factor is not
enabled or no secret is enrolled (Python truthiness: an empty-string secret
also fails), rejects an invalid TOTP code with HTTP 400, and otherwise
issues a fresh fully-authenticated token. -/
def verify_2fa_login (db : List User) (bl : Blocklist) (now : Nat)
    (token : Token) (code : String) (newJti : String) :
    Except Err TokenResponse :=
  match get_current_user_for_2fa db bl now token with
  | .error e => .error e
  | .ok current_user =>
    match findById db current_user.id with
    | none => .error (.http 400 "2FA not enabled or user not found.")
    | some user =>
      if !user.is_two_factor_enabled then
        .error (.http 400 "2FA not enabled or user not found.")
      else
        match user.two_factor_secret with
        | none => .error (.http 400 "2FA not enabled or user not found.")
        | some secret =>
          if secret == "" then
            .error (.http 400 "2FA not enabled or user not found.")
          else if !totpVerify secret now code then
            .error (.http 400 "Invalid 2FA code.")
          else
            .ok { access_token := .signed (create_access_token
                    { sub := user.username, scope := none, user_id := none }
                    (some (ACCESS_TOKEN_EXPIRE_MINUTES * 60)) now newJti),
                  token_type := "bearer" }

/-- The JSON body returned by `logout`. -/
structure LogoutResponse where
  message : String
deriving DecidableEq, Repr

/-- `logout` (`api/auth.py`): the route's dependency
`get_current_active_user` runs first and can reject the request outright;
the handler body then decodes the token without expiry verification,
blocklists its `jti` when both `jti` and `exp` are truthy (Python
truthiness: a non-empty `jti` and a non-zero `exp`), and returns a success
message; a decode failure in the body yields the "token was invalid"
success message.  Returns the response together with the updated
blocklist. -/
def logout (db : List User) (bl : Blocklist) (now : Nat) (token : Token) :
    Except Err (LogoutResponse × Blocklist) :=
  match get_current_active_user db bl now token with
  | .error e => .error e
  | .ok _ =>
    match jwtDecodeNoExp token with
    | .error _ => .ok ({ message := "Logout successful (token was invalid)" }, bl)
    | .ok payload =>
      match payload.jti, payload.tokExp with
      | some jti, some e =>
        if jti != "" && e != 0 then
          .ok ({ message := "Successfully logged out" },
               add_token_to_blocklist bl now jti e)
        else
          .ok ({ message := "Successfully logged out" }, bl)
      | _, _ => .ok ({ message := "Successfully logged out" }, bl)

/-! Concrete principals used to evaluate the development on closed inputs. -/

/-- An active principal without second factor. -/
def exAlice : User :=
  { id := 1, username := "alice", hashed_password := .bcrypt "s1" "correct-pw",
    is_active := true, is_superuser := false, two_factor_secret := none,
    is_two_factor_enabled := false }

/-- An active principal with second factor enabled and secret "S". -/
def exBob : User :=
  { id := 2, username := "bob", hashed_password := .bcrypt "s2" "bob-pw",
    is_active := true, is_superuser := false, two_factor_secret := some "S",
    is_two_factor_enabled := true }

/-- An inactive principal without second factor. -/
def exCarol : User :=
  { id := 3, username := "carol", hashed_password := .bcrypt "s3" "carol-pw",
    is_active := false, is_superuser := false, two_factor_secret := none,
    is_two_factor_enabled := false }

/-- An inactive principal with second factor enabled and secret "S". -/
def exDave : User :=
  { id := 4, username := "dave", hashed_password := .bcrypt "s4" "dave-pw",
    is_active := false, is_superuser := false, two_factor_secret := some "S",
    is_two_factor_enabled := true }

/-- A small principal store holding the four example principals. -/
def exDb : List User := [exAlice, exBob, exCarol, exDave]

/-! Theorems settling the claims. -/

/-- C8 counterexample: on a digest that passlib cannot identify as a bcrypt
hash, `verify_password` propagates `UnknownHashError` instead of returning
`false`, so the claim that it never throws and returns `false` on a malformed
digest is false at the concrete input `("pw", "nothash")`. -/
theorem verify_password_throws_on_malformed :
    verify_password "pw" (.malformed "nothash") = .error .unknownHash ∧
    verify_password "pw" (.malformed "nothash") ≠ .ok false := by
  constructor
  · rfl
  · intro h
    exact Except.noConfusion h

/-- C8 amended: `verify_password` takes any input pair; on a well-formed
bcrypt digest it returns the boolean comparison result, and on a malformed
digest it raises passlib's `UnknownHashError` (it does not return `false`). -/
theorem verify_password_total_spec (plain salt pw raw : String) :
    verify_password plain (.bcrypt salt pw) = .ok (plain == pw) ∧
    verify_password plain (.malformed raw) = .error .unknownHash :=
  ⟨rfl, rfl⟩

/-- When the expiry timestamp is not in the future, `add_token_to_blocklist`
writes nothing. -/
theorem add_blocklist_nonpos (bl : Blocklist) (now : Nat) (j : String)
    (e : Nat) (h : e ≤ now) : add_token_to_blocklist bl now j e = bl := by
  have httl : ¬ (0 < (e : Int) - (now : Int)) := by omega
  simp [add_token_to_blocklist, httl]

/-- When the expiry timestamp is in the future, `add_token_to_blocklist`
inserts an entry lapsing exactly at the expiry timestamp. -/
theorem add_blocklist_pos (bl : Blocklist) (now : Nat) (j : String)
    (e : Nat) (h : now < e) :
    add_token_to_blocklist bl now j e = (j, e) :: bl := by
  have httl : (0 : Int) < (e : Int) - (now : Int) := by omega
  simp [add_token_to_blocklist, redisSetex, httl]
  omega

/-- C9: `add_token_to_blocklist` computes the remaining TTL as
`expires_at_timestamp - now`; when that is zero or negative it writes
nothing, and otherwise it inserts an entry for the jti lapsing exactly at the
token's expiry timestamp, so the entry is never live at or after the token's
natural expiry beyond what the store already held. -/
theorem add_token_to_blocklist_ttl_spec (bl : Blocklist) (now : Nat)
    (j : String) (e : Nat) :
    (e ≤ now → add_token_to_blocklist bl now j e = bl) ∧
    (now < e → add_token_to_blocklist bl now j e = (j, e) :: bl) ∧
    (∀ t, e ≤ t →
      redisExists (add_token_to_blocklist bl now j e) t j =
        redisExists bl t j) := by
  refine ⟨fun h => add_blocklist_nonpos bl now j e h,
    fun h => add_blocklist_pos bl now j e h, ?_⟩
  intro t ht
  by_cases h : now < e
  · rw [add_blocklist_pos bl now j e h]
    have hdead : decide (t < e) = false := by
      simp only [decide_eq_false_iff_not]
      omega
    simp [redisExists, List.any_cons, hdead]
  · rw [add_blocklist_nonpos bl now j e (by omega)]

/-- Witness for C9 at concrete inputs: with `now = 10` an expiry of 10 writes
nothing, an expiry of 15 writes an entry lapsing at 15, and at time 15 that
entry is already dead. -/
theorem add_token_to_blocklist_ttl_spec_witness :
    add_token_to_blocklist [] 10 "j" 10 = [] ∧
    add_token_to_blocklist [] 10 "j" 15 = [("j", 15)] ∧
    redisExists (add_token_to_blocklist [] 10 "j" 15) 15 "j" =
      redisExists [] 15 "j" := by
  refine ⟨(add_token_to_blocklist_ttl_spec [] 10 "j" 10).1 (by decide),
    (add_token_to_blocklist_ttl_spec [] 10 "j" 15).2.1 (by decide),
    (add_token_to_blocklist_ttl_spec [] 10 "j" 15).2.2 15 (by decide)⟩

/-- C6: a login attempt with an unknown username and a login attempt with a
known username but a mismatching password produce the identical outcome: the
same HTTP 401 with detail "Incorrect username or password". -/
theorem login_enumeration_resistant (db : List User) (u1 p1 u2 p2 : String)
    (usr : User) (now1 now2 : Nat) (j1 j2 : String)
    (h1 : findByUsername db u1 = none)
    (h2 : findByUsername db u2 = some usr)
    (h3 : verify_password p2 usr.hashed_password = .ok false) :
    login_for_access_token db u1 p1 now1 j1 =
      .error (.http 401 "Incorrect username or password") ∧
    login_for_access_token db u2 p2 now2 j2 =
      .error (.http 401 "Incorrect username or password") := by
  constructor
  · simp [login_for_access_token, authenticate_user, h1]
  · simp [login_for_access_token, authenticate_user, h2, h3]

/-- Witness for C6: in the example store, "zed" is absent and "alice" with a
wrong password fails verification; both logins yield the same 401. -/
theorem login_enumeration_resistant_witness :
    login_for_access_token exDb "zed" "x" 0 "j1" =
      .error (.http 401 "Incorrect username or password") ∧
    login_for_access_token exDb "alice" "wrong-pw" 7 "j2" =
      .error (.http 401 "Incorrect username or password") :=
  login_enumeration_resistant exDb "zed" "x" "alice" "wrong-pw" exAlice 0 7
    "j1" "j2" (by decide) (by decide) (by decide)

/-- C7 counterexample: for a valid token of the inactive principal `carol`,
`get_current_active_user` rejects with HTTP 400 ("Inactive user"), not with
the 403 Forbidden error kind the claim requires. -/
theorem inactive_rejected_with_400_not_403 :
    get_current_active_user exDb [] 5
      (.signed { sub := some "carol", scope := none, user_id := none,
                 jti := some "jc", tokExp := some 100 }) =
      .error (.http 400 "Inactive user") ∧
    Err.http 400 "Inactive user" ≠ Err.http 403 "Inactive user" := by
  constructor
  · decide
  · decide

/-- C7 amended: for every token that resolves to an existing principal whose
active flag is false, `get_current_active_user` rejects with HTTP 400 and
detail "Inactive user" (a BadRequest, not the Forbidden kind). -/
theorem get_current_active_user_inactive_400 (db : List User)
    (bl : Blocklist) (now : Nat) (token : Token) (u : User)
    (h : get_current_user db bl now token = .ok u)
    (hin : u.is_active = false) :
    get_current_active_user db bl now token =
      .error (.http 400 "Inactive user") := by
  simp [get_current_active_user, h, hin]

/-- Witness for the amended C7: the inactive principal `carol` with a valid
token is rejected with 400 "Inactive user". -/
theorem get_current_active_user_inactive_400_witness :
    get_current_active_user exDb [] 5
      (.signed { sub := some "carol", scope := none, user_id := none,
                 jti := some "jc", tokExp := some 100 }) =
      .error (.http 400 "Inactive user") :=
  get_current_active_user_inactive_400 exDb [] 5
    (.signed { sub := some "carol", scope := none, user_id := none,
               jti := some "jc", tokExp := some 100 }) exCarol
    (by decide) (by decide)

/-- C1: for a principal with second factor enabled whose password verifies,
`login_for_access_token` returns only the restricted response — a token with
scope `2fa_required` and the `is_2fa_required` flag set, never the
fully-authenticated shape — and `get_current_user` rejects that token with
an HTTP 401 in every store state and at every time. -/
theorem login_2fa_returns_only_restricted_token (db : List User)
    (username password : String) (now : Nat) (j : String) (u : User)
    (hfind : findByUsername db username = some u)
    (hpw : verify_password password u.hashed_password = .ok true)
    (h2fa : u.is_two_factor_enabled = true) :
    login_for_access_token db username password now j =
      .ok (.twoFA (.signed (create_access_token
        { sub := u.username, scope := some "2fa_required",
          user_id := some u.id } (some (5 * 60)) now j)) "bearer" true u.id) ∧
    (create_access_token
        { sub := u.username, scope := some "2fa_required",
          user_id := some u.id } (some (5 * 60)) now j).scope =
      some "2fa_required" ∧
    ∀ (db' : List User) (bl : Blocklist) (t : Nat), ∃ d,
      get_current_user db' bl t (.signed (create_access_token
        { sub := u.username, scope := some "2fa_required",
          user_id := some u.id } (some (5 * 60)) now j)) =
        .error (.http 401 d) := by
  refine ⟨?_, rfl, ?_⟩
  · simp [login_for_access_token, authenticate_user, hfind, hpw, h2fa]
  · intro db' bl t
    by_cases hd : expOk t (some (now + 5 * 60)) = true
    · by_cases hb : redisExists bl t j = true
      · exact ⟨credentialsDetail, by
          simp [get_current_user, jwtDecode, create_access_token, hd, hb]⟩
      · refine ⟨"Token valid only for 2FA verification step. Full authentication required.", ?_⟩
        simp [get_current_user, jwtDecode, create_access_token, hd, hb]
    · exact ⟨credentialsDetail, by
        simp [get_current_user, jwtDecode, create_access_token, hd]⟩

/-- Witness for C1: `bob` (second factor enabled) logging in at time 0 gets
the restricted response, and `get_current_user` rejects the restricted token
with 401. -/
theorem login_2fa_returns_only_restricted_token_witness :
    login_for_access_token exDb "bob" "bob-pw" 0 "jb" =
      .ok (.twoFA (.signed (create_access_token
        { sub := exBob.username, scope := some "2fa_required",
          user_id := some exBob.id } (some (5 * 60)) 0 "jb")) "bearer" true
        exBob.id) ∧
    ∃ d, get_current_user exDb [] 0 (.signed (create_access_token
        { sub := exBob.username, scope := some "2fa_required",
          user_id := some exBob.id } (some (5 * 60)) 0 "jb")) =
      .error (.http 401 d) := by
  have h := login_2fa_returns_only_restricted_token exDb "bob" "bob-pw" 0
    "jb" exBob (by decide) (by decide) (by decide)
  exact ⟨h.1, h.2.2 exDb [] 0⟩

/-- C4: for a stored principal with second factor disabled, active, and a
verifying password, login issues a fully-authenticated token with no scope
claim, and `get_current_user` applied immediately to that token (fresh jti
not blocklisted) returns the same principal. -/
theorem login_no_2fa_roundtrip (db : List User) (bl : Blocklist)
    (username password : String) (now : Nat) (j : String) (u : User)
    (hfind : findByUsername db username = some u)
    (hpw : verify_password password u.hashed_password = .ok true)
    (h2fa : u.is_two_factor_enabled = false)
    (_hactive : u.is_active = true)
    (hfresh : redisExists bl now j = false) :
    login_for_access_token db username password now j =
      .ok (.full (.signed (create_access_token
        { sub := u.username, scope := none, user_id := none }
        (some (ACCESS_TOKEN_EXPIRE_MINUTES * 60)) now j)) "bearer") ∧
    get_current_user db bl now (.signed (create_access_token
        { sub := u.username, scope := none, user_id := none }
        (some (ACCESS_TOKEN_EXPIRE_MINUTES * 60)) now j)) = .ok u := by
  have hname : u.username = username := by
    have hp := List.find?_some hfind
    exact eq_of_beq hp
  constructor
  · simp [login_for_access_token, authenticate_user, hfind, hpw, h2fa]
  · have hexp : expOk now (some (now + ACCESS_TOKEN_EXPIRE_MINUTES * 60)) =
        true := by simp [expOk]
    simp [get_current_user, jwtDecode, create_access_token, hexp, hfresh,
      hname, hfind]

/-- Witness for C4: `alice` (no second factor) logs in at time 0 and the
returned token immediately resolves back to `alice`. -/
theorem login_no_2fa_roundtrip_witness :
    login_for_access_token exDb "alice" "correct-pw" 0 "ja" =
      .ok (.full (.signed (create_access_token
        { sub := exAlice.username, scope := none, user_id := none }
        (some (ACCESS_TOKEN_EXPIRE_MINUTES * 60)) 0 "ja")) "bearer") ∧
    get_current_user exDb [] 0 (.signed (create_access_token
        { sub := exAlice.username, scope := none, user_id := none }
        (some (ACCESS_TOKEN_EXPIRE_MINUTES * 60)) 0 "ja")) = .ok exAlice :=
  login_no_2fa_roundtrip exDb [] "alice" "correct-pw" 0 "ja" exAlice
    (by decide) (by decide) (by decide) (by decide) (by decide)

/-! Shared lemmas about the second-factor completion path, used by the
theorems for the claims that concern it. -/

/-- If a restricted token carries scope `2fa_required`, a subject, a user id
and a jti, is not expired and not revoked, and its embedded id resolves to a
principal whose username matches the subject, then the second-factor
dependency accepts it and returns that principal. -/
theorem twofa_dependency_accepts (db : List User) (bl : Blocklist)
    (now : Nat) (p : TokenPayload) (un : String) (uid : Nat) (j : String)
    (cu : User)
    (hsub : p.sub = some un) (huid : p.user_id = some uid)
    (hjti : p.jti = some j) (hscope : p.scope = some "2fa_required")
    (hexp : expOk now p.tokExp = true)
    (hnb : redisExists bl now j = false)
    (hfind : findById db uid = some cu)
    (hname : cu.username = un) :
    get_current_user_for_2fa db bl now (.signed p) = .ok cu := by
  simp [get_current_user_for_2fa, jwtDecode, hexp, hsub, huid, hjti,
    hscope, hnb, hfind, hname]

/-- With the dependency-accepted restricted token, second factor enabled, a
non-empty enrolled secret and a TOTP code that verifies, `verify_2fa_login`
issues a fresh fully-authenticated token for the principal. -/
theorem twofa_login_issues_token (db : List User) (bl : Blocklist)
    (now : Nat) (token : Token) (cu : User) (s code j2 : String)
    (hacc : get_current_user_for_2fa db bl now token = .ok cu)
    (hrefetch : findById db cu.id = some cu)
    (h2fa : cu.is_two_factor_enabled = true)
    (hsec : cu.two_factor_secret = some s) (hs : s ≠ "")
    (hcode : totpVerify s now code = true) :
    verify_2fa_login db bl now token code j2 =
      .ok { access_token := .signed (create_access_token
              { sub := cu.username, scope := none, user_id := none }
              (some (ACCESS_TOKEN_EXPIRE_MINUTES * 60)) now j2),
            token_type := "bearer" } := by
  have hsne : (s == "") = false := by
    simp only [beq_eq_false_iff_ne, ne_eq]
    exact hs
  simp [verify_2fa_login, hacc, hrefetch, h2fa, hsec, hsne, hcode]

/-- With the dependency-accepted restricted token but a TOTP code that does
not verify, `verify_2fa_login` fails with HTTP 400 "Invalid 2FA code.". -/
theorem twofa_login_rejects_bad_code (db : List User) (bl : Blocklist)
    (now : Nat) (token : Token) (cu : User) (s code j2 : String)
    (hacc : get_current_user_for_2fa db bl now token = .ok cu)
    (hrefetch : findById db cu.id = some cu)
    (h2fa : cu.is_two_factor_enabled = true)
    (hsec : cu.two_factor_secret = some s) (hs : s ≠ "")
    (hcode : totpVerify s now code = false) :
    verify_2fa_login db bl now token code j2 =
      .error (.http 400 "Invalid 2FA code.") := by
  have hsne : (s == "") = false := by
    simp only [beq_eq_false_iff_ne, ne_eq]
    exact hs
  simp [verify_2fa_login, hacc, hrefetch, h2fa, hsec, hsne, hcode]

/-- A principal found by id satisfies the refetch-by-its-own-id equation. -/
theorem findById_refetch (db : List User) (uid : Nat) (cu : User)
    (hfind : findById db uid = some cu) : findById db cu.id = some cu := by
  have hid : cu.id = uid := by
    have hp := List.find?_some hfind
    exact eq_of_beq hp
  rw [hid]
  exact hfind

/-- A freshly issued full-access token for a principal present in the store
is accepted by `get_current_user`, resolving to some principal with the same
username. -/
theorem fresh_full_token_accepted (db : List User) (bl : Blocklist)
    (now : Nat) (cu : User) (j2 : String)
    (hmem : cu ∈ db)
    (hfresh : redisExists bl now j2 = false) :
    ∃ u', get_current_user db bl now (.signed (create_access_token
        { sub := cu.username, scope := none, user_id := none }
        (some (ACCESS_TOKEN_EXPIRE_MINUTES * 60)) now j2)) = .ok u' ∧
      u'.username = cu.username := by
  have hsome : (db.find? (fun x => x.username == cu.username)).isSome :=
    List.find?_isSome.mpr ⟨cu, hmem, by simp⟩
  obtain ⟨u', hu'⟩ := Option.isSome_iff_exists.mp hsome
  have hb := List.find?_some hu'
  simp only [beq_iff_eq] at hb
  refine ⟨u', ?_, hb⟩
  have hexp2 : expOk now (some (now + ACCESS_TOKEN_EXPIRE_MINUTES * 60)) =
      true := by simp [expOk]
  simp [get_current_user, jwtDecode, create_access_token, hexp2, hfresh,
    findByUsername, hu']

/-- C5: for a restricted token satisfying everything the second-factor
dependency checks (scope exactly `2fa_required`, `sub`/`user_id`/`jti`
present, not expired, not revoked, subject matching the loaded principal,
second factor enabled with a non-empty secret): with the correct TOTP code
`verify_2fa_login` returns a fully-authenticated token that
`get_current_user` accepts, and with an incorrect code it fails with HTTP
400 "Invalid 2FA code." and returns neither token nor principal. -/
theorem verify_2fa_code_decides_outcome (db : List User) (bl : Blocklist)
    (now : Nat) (p : TokenPayload) (un : String) (uid : Nat) (j : String)
    (cu : User) (s code j2 : String)
    (hsub : p.sub = some un) (huid : p.user_id = some uid)
    (hjti : p.jti = some j) (hscope : p.scope = some "2fa_required")
    (hexp : expOk now p.tokExp = true)
    (hnb : redisExists bl now j = false)
    (hfind : findById db uid = some cu)
    (hname : cu.username = un)
    (h2fa : cu.is_two_factor_enabled = true)
    (hsec : cu.two_factor_secret = some s) (hs : s ≠ "")
    (hfresh : redisExists bl now j2 = false) :
    get_current_user_for_2fa db bl now (.signed p) = .ok cu ∧
    (totpVerify s now code = true →
      verify_2fa_login db bl now (.signed p) code j2 =
        .ok { access_token := .signed (create_access_token
                { sub := cu.username, scope := none, user_id := none }
                (some (ACCESS_TOKEN_EXPIRE_MINUTES * 60)) now j2),
              token_type := "bearer" } ∧
      ∃ u', get_current_user db bl now (.signed (create_access_token
          { sub := cu.username, scope := none, user_id := none }
          (some (ACCESS_TOKEN_EXPIRE_MINUTES * 60)) now j2)) = .ok u' ∧
        u'.username = cu.username) ∧
    (totpVerify s now code = false →
      verify_2fa_login db bl now (.signed p) code j2 =
        .error (.http 400 "Invalid 2FA code.")) := by
  have hacc := twofa_dependency_accepts db bl now p un uid j cu hsub huid
    hjti hscope hexp hnb hfind hname
  have hrefetch := findById_refetch db uid cu hfind
  have hmem : cu ∈ db := List.mem_of_find?_eq_some hfind
  refine ⟨hacc, ?_, ?_⟩
  · intro hcode
    exact ⟨twofa_login_issues_token db bl now (.signed p) cu s code j2 hacc
        hrefetch h2fa hsec hs hcode,
      fresh_full_token_accepted db bl now cu j2 hmem hfresh⟩
  · intro hcode
    exact twofa_login_rejects_bad_code db bl now (.signed p) cu s code j2
      hacc hrefetch h2fa hsec hs hcode

/-- Witness for C5: `bob`'s restricted token at time 60 with the correct
code for secret "S" yields an accepted full token; with code "000000" it is
rejected with 400. -/
theorem verify_2fa_code_decides_outcome_witness :
    (verify_2fa_login exDb [] 60
        (.signed { sub := some "bob", scope := some "2fa_required",
                   user_id := some 2, jti := some "jb", tokExp := some 300 })
        (totpAt "S" 2) "j2" =
      .ok { access_token := .signed (create_access_token
              { sub := exBob.username, scope := none, user_id := none }
              (some (ACCESS_TOKEN_EXPIRE_MINUTES * 60)) 60 "j2"),
            token_type := "bearer" }) ∧
    (verify_2fa_login exDb [] 60
        (.signed { sub := some "bob", scope := some "2fa_required",
                   user_id := some 2, jti := some "jb", tokExp := some 300 })
        "000000" "j2" = .error (.http 400 "Invalid 2FA code.")) := by
  have hok := verify_2fa_code_decides_outcome exDb [] 60
    { sub := some "bob", scope := some "2fa_required", user_id := some 2,
      jti := some "jb", tokExp := some 300 } "bob" 2 "jb" exBob "S"
    (totpAt "S" 2) "j2" rfl rfl rfl rfl (by decide) (by decide) (by decide)
    (by decide) (by decide) (by decide) (by decide) (by decide)
  have hbad := verify_2fa_code_decides_outcome exDb [] 60
    { sub := some "bob", scope := some "2fa_required", user_id := some 2,
      jti := some "jb", tokExp := some 300 } "bob" 2 "jb" exBob "S"
    "000000" "j2" rfl rfl rfl rfl (by decide) (by decide) (by decide)
    (by decide) (by decide) (by decide) (by decide) (by decide)
  exact ⟨(hok.2.1 (by decide)).1, hbad.2.2 (by decide)⟩

/-- C10: neither `get_current_user_for_2fa` nor `verify_2fa_login` checks the
active flag, so an inactive principal with second factor enabled, a valid
restricted token and the correct TOTP code still obtains a
fully-authenticated token — which `get_current_active_user` then rejects at
the inactive-principal check. -/
theorem verify_2fa_ignores_active_flag (db : List User) (bl : Blocklist)
    (now : Nat) (p : TokenPayload) (un : String) (uid : Nat) (j : String)
    (cu : User) (s code j2 : String)
    (hsub : p.sub = some un) (huid : p.user_id = some uid)
    (hjti : p.jti = some j) (hscope : p.scope = some "2fa_required")
    (hexp : expOk now p.tokExp = true)
    (hnb : redisExists bl now j = false)
    (hfind : findById db uid = some cu)
    (hname : cu.username = un)
    (h2fa : cu.is_two_factor_enabled = true)
    (hsec : cu.two_factor_secret = some s) (hs : s ≠ "")
    (hinactive : cu.is_active = false)
    (hcode : totpVerify s now code = true)
    (hfresh : redisExists bl now j2 = false)
    (huniq : findByUsername db cu.username = some cu) :
    verify_2fa_login db bl now (.signed p) code j2 =
      .ok { access_token := .signed (create_access_token
              { sub := cu.username, scope := none, user_id := none }
              (some (ACCESS_TOKEN_EXPIRE_MINUTES * 60)) now j2),
            token_type := "bearer" } ∧
    get_current_active_user db bl now (.signed (create_access_token
        { sub := cu.username, scope := none, user_id := none }
        (some (ACCESS_TOKEN_EXPIRE_MINUTES * 60)) now j2)) =
      .error (.http 400 "Inactive user") := by
  have hacc := twofa_dependency_accepts db bl now p un uid j cu hsub huid
    hjti hscope hexp hnb hfind hname
  have hrefetch := findById_refetch db uid cu hfind
  refine ⟨twofa_login_issues_token db bl now (.signed p) cu s code j2 hacc
      hrefetch h2fa hsec hs hcode, ?_⟩
  have hexp2 : expOk now (some (now + ACCESS_TOKEN_EXPIRE_MINUTES * 60)) =
      true := by simp [expOk]
  have hres : get_current_user db bl now (.signed (create_access_token
      { sub := cu.username, scope := none, user_id := none }
      (some (ACCESS_TOKEN_EXPIRE_MINUTES * 60)) now j2)) = .ok cu := by
    simp [get_current_user, jwtDecode, create_access_token, hexp2, hfresh,
      huniq]
  simp [get_current_active_user, hres, hinactive]

/-- Witness for C10: the inactive `dave`'s restricted token at time 60 with
the correct code for "S" yields a full token, which the active-user
dependency then rejects with 400 "Inactive user". -/
theorem verify_2fa_ignores_active_flag_witness :
    verify_2fa_login exDb [] 60
      (.signed { sub := some "dave", scope := some "2fa_required",
                 user_id := some 4, jti := some "jd", tokExp := some 300 })
      (totpAt "S" 2) "j4" =
      .ok { access_token := .signed (create_access_token
              { sub := exDave.username, scope := none, user_id := none }
              (some (ACCESS_TOKEN_EXPIRE_MINUTES * 60)) 60 "j4"),
            token_type := "bearer" } ∧
    get_current_active_user exDb [] 60 (.signed (create_access_token
        { sub := exDave.username, scope := none, user_id := none }
        (some (ACCESS_TOKEN_EXPIRE_MINUTES * 60)) 60 "j4")) =
      .error (.http 400 "Inactive user") :=
  verify_2fa_ignores_active_flag exDb [] 60
    { sub := some "dave", scope := some "2fa_required", user_id := some 4,
      jti := some "jd", tokExp := some 300 } "dave" 4 "jd" exDave "S"
    (totpAt "S" 2) "j4" rfl rfl rfl rfl (by decide) (by decide) (by decide)
    (by decide) (by decide) (by decide) (by decide) (by decide) (by decide)
    (by decide) (by decide)

/-- C2 counterexample: for a token expiring exactly at the current second
(still accepted by every check, since the decoder rejects only `exp < now`),
`logout` succeeds but writes no revocation entry (remaining TTL is 0), and a
subsequent `get_current_user` call at that same second returns the principal
instead of rejecting with 401 — so "after logout, every subsequent
resolveCaller rejects" is false at this input. -/
theorem logout_unrevoked_at_expiry_second :
    logout exDb [] 100
      (.signed { sub := some "alice", scope := none, user_id := none,
                 jti := some "j1", tokExp := some 100 }) =
      .ok ({ message := "Successfully logged out" }, []) ∧
    get_current_user exDb [] 100
      (.signed { sub := some "alice", scope := none, user_id := none,
                 jti := some "j1", tokExp := some 100 }) = .ok exAlice := by
  constructor
  · decide
  · decide

/-- C2 amended: for every token accepted at logout time whose jti is
non-empty and whose expiry claim is non-zero (true of every token the system
issues), `logout` returns the success response after blocklisting the jti
with TTL `exp - now`, and every `get_current_user` call at any later time
other than the exact expiry second rejects with HTTP 401 — blocked while the
token is alive, expired afterwards.  At the exact expiry second the
revocation entry has already lapsed while the decoder still accepts the
token. -/
theorem logout_revocation_visible (db : List User) (bl : Blocklist)
    (t1 : Nat) (p : TokenPayload) (un j : String) (e : Nat) (u : User)
    (hsub : p.sub = some un) (hjti : p.jti = some j) (hj : j ≠ "")
    (hexp : p.tokExp = some e) (he : e ≠ 0) (ht1 : t1 ≤ e)
    (hnb : redisExists bl t1 j = false)
    (hscope : p.scope ≠ some "2fa_required")
    (hfind : findByUsername db un = some u)
    (hactive : u.is_active = true) :
    get_current_user db bl t1 (.signed p) = .ok u ∧
    logout db bl t1 (.signed p) =
      .ok ({ message := "Successfully logged out" },
           add_token_to_blocklist bl t1 j e) ∧
    ∀ t2, t1 ≤ t2 → t2 ≠ e →
      ∃ d, get_current_user db (add_token_to_blocklist bl t1 j e) t2
        (.signed p) = .error (.http 401 d) := by
  have hdec1 : expOk t1 (some e) = true := by
    simp only [expOk, Bool.not_eq_true']
    simp only [decide_eq_false_iff_not]
    omega
  have hscopeb : (p.scope == some "2fa_required") = false := by
    simp only [beq_eq_false_iff_ne, ne_eq]
    exact hscope
  have hcu : get_current_user db bl t1 (.signed p) = .ok u := by
    simp [get_current_user, jwtDecode, hexp, hdec1, hsub, hjti, hnb,
      hscopeb, hfind]
  have hjb : (j != "") = true := by
    simp only [bne_iff_ne, ne_eq]
    exact hj
  have heb : (e != 0) = true := by
    simp only [bne_iff_ne, ne_eq]
    exact he
  refine ⟨hcu, ?_, ?_⟩
  · simp [logout, get_current_active_user, hcu, hactive, jwtDecodeNoExp,
      hjti, hexp, hjb, heb]
  · intro t2 h12 hne
    by_cases ht2 : e < t2
    · refine ⟨credentialsDetail, ?_⟩
      have hdec2 : expOk t2 (some e) = false := by
        simp only [expOk, Bool.not_eq_false']
        simp only [decide_eq_true_eq]
        omega
      simp [get_current_user, jwtDecode, hexp, hdec2]
    · have hlt : t2 < e := by omega
      have hbl : add_token_to_blocklist bl t1 j e = (j, e) :: bl :=
        add_blocklist_pos bl t1 j e (by omega)
      refine ⟨credentialsDetail, ?_⟩
      have hdec2 : expOk t2 (some e) = true := by
        simp only [expOk, Bool.not_eq_true']
        simp only [decide_eq_false_iff_not]
        omega
      have hblocked : redisExists ((j, e) :: bl) t2 j = true := by
        simp [redisExists, List.any_cons, hlt]
      simp [get_current_user, jwtDecode, hexp, hdec2, hsub, hjti, hbl,
        hblocked]

/-- Witness for the amended C2: `alice`'s token (jti "j1", expiry 100) is
accepted at time 10, logout at time 10 blocklists it, and at time 50 the
token is rejected with 401. -/
theorem logout_revocation_visible_witness :
    get_current_user exDb [] 10
      (.signed { sub := some "alice", scope := none, user_id := none,
                 jti := some "j1", tokExp := some 100 }) = .ok exAlice ∧
    logout exDb [] 10
      (.signed { sub := some "alice", scope := none, user_id := none,
                 jti := some "j1", tokExp := some 100 }) =
      .ok ({ message := "Successfully logged out" },
           add_token_to_blocklist [] 10 "j1" 100) ∧
    ∃ d, get_current_user exDb (add_token_to_blocklist [] 10 "j1" 100) 50
      (.signed { sub := some "alice", scope := none, user_id := none,
                 jti := some "j1", tokExp := some 100 }) =
      .error (.http 401 d) := by
  have h := logout_revocation_visible exDb [] 10
    { sub := some "alice", scope := none, user_id := none,
      jti := some "j1", tokExp := some 100 } "alice" "j1" 100 exAlice
    rfl rfl (by decide) rfl (by decide) (by decide) (by decide) (by decide)
    (by decide) (by decide)
  exact ⟨h.1, h.2.1, h.2.2 50 (by decide) (by decide)⟩

/-- C3: the logout route declares `Depends(get_current_active_user)`, which
fully validates the bearer token before the handler body runs, so a revoked,
expired or malformed token is rejected with an error instead of receiving
the success-shaped response the contract (and the handler's own comments,
which decode without expiry verification precisely to accept expired
tokens) require.  Concretely: after a first successful logout of `alice`'s
token at time 10, a second logout of the same token at time 11 errors with
HTTP 401; an expired token at time 200 errors with 401; a malformed token
errors with 401. -/
theorem logout_not_always_success_shaped :
    logout exDb [] 10
      (.signed { sub := some "alice", scope := none, user_id := none,
                 jti := some "j1", tokExp := some 100 }) =
      .ok ({ message := "Successfully logged out" }, [("j1", 100)]) ∧
    logout exDb [("j1", 100)] 11
      (.signed { sub := some "alice", scope := none, user_id := none,
                 jti := some "j1", tokExp := some 100 }) =
      .error (.http 401 credentialsDetail) ∧
    logout exDb [] 200
      (.signed { sub := some "alice", scope := none, user_id := none,
                 jti := some "j1", tokExp := some 100 }) =
      .error (.http 401 credentialsDetail) ∧
    logout exDb [] 10 .malformed = .error (.http 401 credentialsDetail) := by
  refine ⟨?_, ?_, ?_, ?_⟩
  · decide
  · decide
  · decide
  · decide

end EnochCyber
